import Mathlib

/-!
Verification of the `GitHub` adapter in `src/github.ts`.

The adapter reconciles CI build jobs with remote check runs.  We embed its
data model (`BuildInfo`, `JobInfo`, remote check runs, create payloads) and
its operations as pure Lean functions.  Asynchronous remote calls are
modelled by passing their outcome explicitly as an `Except` value, and the
caller-supplied `getJobOutput` callback is instrumented: functions return,
alongside their result, the list of arguments the callback was invoked on,
so that "the callback is never invoked" is a statement about that list.
-/

/-- `BuildInfo` from `./ci`: identifies one CI build attached to one commit. -/
structure BuildInfo where
  id : String
  domain : String
  owner : String
  repo : String
  headSha : String
  deriving DecidableEq, Repr

/-- `JobInfo` from `./ci`: one job within a build.  `state` is a free-form
string reported by the CI domain. -/
structure JobInfo where
  jobId : String
  name : String
  url : String
  state : String
  startedAt : String
  finishedAt : String
  ignoreFailure : Bool
  deriving DecidableEq, Repr

/-- A remote check run as returned by `checks.listForRef`
(`Octokit.ListForRefResponseCheckRunsItem`), restricted to the fields the
adapter reads.  `external_id` is `none` when the remote entity carries no
external id (the JavaScript value `undefined`/`null`). -/
structure CheckRun where
  external_id : Option String
  status : String
  name : String
  conclusion : Option String
  app_id : Nat
  deriving DecidableEq, Repr

/-- The structured output block optionally supplied by `getJobOutput`
(`Octokit.ChecksCreateParamsOutput`). -/
structure CheckOutput where
  title : String
  summary : String
  text : String
  deriving DecidableEq, Repr

/-- `Octokit.ChecksCreateParams`: the payload of a `checks.create` call.
The completion fields are absent (`none`) until `addCompletionInfo` sets
them. -/
structure ChecksCreateParams where
  details_url : String
  external_id : String
  head_sha : String
  name : String
  owner : String
  repo : String
  started_at : String
  status : String
  conclusion : Option String
  completed_at : Option String
  output : Option CheckOutput
  deriving DecidableEq, Repr

/-- `GitHub.FINISHED_STATES` (github.ts line 86). -/
def FINISHED_STATES : List String := ["passed", "failed", "errored", "canceled"]

/-- `GitHub.getStatus` (github.ts lines 215–223). -/
def getStatus (jobInfo : JobInfo) : String :=
  if FINISHED_STATES.contains jobInfo.state then
    "completed"
  else if jobInfo.state = "started" then
    "in_progress"
  else
    "queued"

/-- `GitHub.getConclusion` (github.ts lines 225–235). -/
def getConclusion (jobInfo : JobInfo) : String :=
  if jobInfo.state = "passed" then
    "success"
  else if jobInfo.state = "failed" && !jobInfo.ignoreFailure then
    "failure"
  else if jobInfo.state = "canceled" then
    "cancelled"
  else
    "neutral"

/-- Splitting a character list on `/`, accumulating the current field in
reverse: the semantics of JavaScript `s.split('/')` for a single-character
separator. -/
def splitOnSlashAux : List Char → List Char → List String
  | [], acc => [String.mk acc.reverse]
  | c :: rest, acc =>
    if c = '/' then String.mk acc.reverse :: splitOnSlashAux rest []
    else splitOnSlashAux rest (c :: acc)

/-- JavaScript `s.split('/')` (github.ts line 174). -/
def jsSplitSlash (s : String) : List String :=
  splitOnSlashAux s.data []

/-- `GitHub.isCheckForJob` (github.ts lines 170–176).  The JavaScript guard
`!c.external_id` rejects both a missing id and the empty string; the
destructuring `const [domain, buildId, jobId] = split` reads the first three
components of the split (missing components are `undefined` and compare
unequal to any string). -/
def isCheckForJob (buildInfo : BuildInfo) (c : CheckRun) (j : JobInfo) : Bool :=
  match c.external_id with
  | none => false
  | some s =>
    if s = "" then false
    else
      let parts := jsSplitSlash s
      parts.get? 0 == some buildInfo.domain &&
        parts.get? 1 == some buildInfo.id &&
        parts.get? 2 == some j.jobId

/-- The loop-body condition of `GitHub.checksToCreate` (github.ts lines
112–119): a job is pushed when no existing check matches it, or the first
matching check's status or name differs from the job's current ones. -/
def shouldCreate (buildInfo : BuildInfo) (existingChecks : List CheckRun)
    (current : JobInfo) : Bool :=
  match existingChecks.find? (fun c => isCheckForJob buildInfo c current) with
  | none => true
  | some existing => getStatus current != existing.status || current.name != existing.name

/-- The pure core of `GitHub.checksToCreate` (github.ts lines 107–123), after
the existing checks have been fetched: the loop pushes, in input order,
exactly the jobs satisfying the create condition. -/
def checksToCreate (buildInfo : BuildInfo) (existingChecks : List CheckRun)
    (newJobs : List JobInfo) : List JobInfo :=
  newJobs.filter (shouldCreate buildInfo existingChecks)

/-- `GitHub.getExistingChecks` (github.ts lines 143–168).  The paginated
fetch is passed in as its outcome: a list of pages on success.  Each page is
filtered to check runs whose `app.id` equals this application's id and the
pages are concatenated; on error the function logs and returns `[]`. -/
def getExistingChecks (appId : Nat)
    (fetch : Except String (List (List CheckRun))) : List CheckRun :=
  match fetch with
  | .ok pages => (pages.map (fun page => page.filter (fun c => c.app_id == appId))).flatten
  | .error _ => []

/-- `GitHub.checksToCreate` including its internal `getExistingChecks` call
(github.ts line 110). -/
def checksToCreateFull (appId : Nat) (buildInfo : BuildInfo)
    (fetch : Except String (List (List CheckRun)))
    (newJobs : List JobInfo) : List JobInfo :=
  checksToCreate buildInfo (getExistingChecks appId fetch) newJobs

/-- `GitHub.getChecksCreateParams` (github.ts lines 178–189).  No completion
field is present in the base payload. -/
def getChecksCreateParams (buildInfo : BuildInfo) (jobInfo : JobInfo) :
    ChecksCreateParams :=
  { details_url := jobInfo.url
    external_id := buildInfo.domain ++ "/" ++ buildInfo.id ++ "/" ++ jobInfo.jobId
    head_sha := buildInfo.headSha
    name := jobInfo.name
    owner := buildInfo.owner
    repo := buildInfo.repo
    started_at := jobInfo.startedAt
    status := getStatus jobInfo
    conclusion := none
    completed_at := none
    output := none }

/-- `GitHub.addCompletionInfo` (github.ts lines 191–213).  The injected
`getJobOutput` callback is modelled by the outcome it would produce; the
second component of the result records the arguments it was actually invoked
on.  A thrown output fetch is caught and the output skipped. -/
def addCompletionInfo (getJobOutput : JobInfo → Except String (Option CheckOutput))
    (payload : ChecksCreateParams) (jobInfo : JobInfo) :
    ChecksCreateParams × List JobInfo :=
  let payload := { payload with
    conclusion := some (getConclusion jobInfo)
    completed_at := some jobInfo.finishedAt }
  if payload.conclusion = some "cancelled" then
    (payload, [])
  else
    match getJobOutput jobInfo with
    | .ok (some output) => ({ payload with output := some output }, [jobInfo])
    | .ok none => (payload, [jobInfo])
    | .error _ => (payload, [jobInfo])

/-- The payload-assembly phase of `GitHub.createCheck` (github.ts lines
126–129): the base payload, augmented with completion info when its derived
status is `completed`.  Second component: the `getJobOutput` invocations. -/
def createCheckPayload (getJobOutput : JobInfo → Except String (Option CheckOutput))
    (buildInfo : BuildInfo) (jobInfo : JobInfo) :
    ChecksCreateParams × List JobInfo :=
  let payload := getChecksCreateParams buildInfo jobInfo
  if payload.status = "completed" then
    addCompletionInfo getJobOutput payload jobInfo
  else
    (payload, [])

/-- The numeric identifier in the response of `client.checks.create`. -/
structure CreateResult where
  id : Nat
  deriving DecidableEq, Repr

/-- `GitHub.createCheck` (github.ts lines 125–141).  `create` is the remote
`checks.create` call, modelled by its outcome on each payload.  The result
carries the returned check-run id (`none` when the call failed and the error
was caught and logged), the `getJobOutput` invocations, and the list of
payloads passed to `create` (recording how often the remote call was
attempted). -/
def createCheck (getJobOutput : JobInfo → Except String (Option CheckOutput))
    (create : ChecksCreateParams → Except String CreateResult)
    (buildInfo : BuildInfo) (jobInfo : JobInfo) :
    Option String × List JobInfo × List ChecksCreateParams :=
  let r := createCheckPayload getJobOutput buildInfo jobInfo
  match create r.1 with
  | .ok result => (some (toString result.id), r.2, [r.1])
  | .error _ => (none, r.2, [r.1])

/-- The head-commit reference of a fetched pull request. -/
structure PullRequestHead where
  sha : String
  deriving DecidableEq, Repr

/-- A fetched pull request, restricted to the field the adapter reads:
`head` is `none` when the response carries no head commit reference. -/
structure PullRequest where
  head : Option PullRequestHead
  deriving DecidableEq, Repr

/-- One commit status returned by `repos.getStatuses`. -/
structure CommitStatus where
  context : String
  target_url : String
  deriving DecidableEq, Repr

/-- `StatusInfo` from `./ci`: the result of `getLatestTravisStatus`.  The
repository payload is identified by an abstract value. -/
structure StatusInfo where
  repository : String
  sha : String
  target_url : String
  deriving DecidableEq, Repr

/-- The paginated scan of github.ts lines 48–64: pages are consumed in
order; within a page, statuses are scanned in order for the first whose
context is the Travis literal; on a match `done()` stops pagination. -/
def findTravisStatus : List (List CommitStatus) → Option CommitStatus
  | [] => none
  | page :: rest =>
    match page.find? (fun s => s.context == "continuous-integration/travis-ci/pr") with
    | some s => some s
    | none => findTravisStatus rest

/-- `GitHub.getLatestTravisStatus` (github.ts lines 31–84).  The two remote
fetches are passed in as their outcomes; any thrown error is caught by the
surrounding try and converted to `none`. -/
def getLatestTravisStatus (repository : String)
    (prFetch : Except String PullRequest)
    (statusFetch : Except String (List (List CommitStatus))) : Option StatusInfo :=
  match prFetch with
  | .error _ => none
  | .ok pr =>
    match pr.head with
    | none => none
    | some head =>
      match statusFetch with
      | .error _ => none
      | .ok pages =>
        match findTravisStatus pages with
        | none => none
        | some travisStatus =>
          some { repository := repository
                 sha := head.sha
                 target_url := travisStatus.target_url }

/-- C1: the derived check-run status is a pure total function of the job
state: the four finished states map to `completed`, `started` maps to
`in_progress`, and every other state maps to `queued`. -/
theorem getStatus_total_mapping (j : JobInfo) :
    ((j.state = "passed" ∨ j.state = "failed" ∨ j.state = "errored" ∨
        j.state = "canceled") → getStatus j = "completed") ∧
    (j.state = "started" → getStatus j = "in_progress") ∧
    ((j.state ≠ "passed" ∧ j.state ≠ "failed" ∧ j.state ≠ "errored" ∧
        j.state ≠ "canceled" ∧ j.state ≠ "started") → getStatus j = "queued") := by
  refine ⟨fun h => ?_, fun h => ?_, fun h => ?_⟩
  · unfold getStatus FINISHED_STATES
    rcases h with h | h | h | h <;> simp [h]
  · unfold getStatus FINISHED_STATES
    simp [h]
  · obtain ⟨h1, h2, h3, h4, h5⟩ := h
    unfold getStatus FINISHED_STATES
    simp [h1, h2, h3, h4, h5]

/-- Witness for C1 at concrete states. -/
theorem getStatus_total_mapping_witness :
    getStatus { jobId := "1", name := "n", url := "u", state := "errored",
                startedAt := "s", finishedAt := "f", ignoreFailure := false } = "completed" ∧
    getStatus { jobId := "1", name := "n", url := "u", state := "started",
                startedAt := "s", finishedAt := "f", ignoreFailure := false } = "in_progress" ∧
    getStatus { jobId := "1", name := "n", url := "u", state := "restarting",
                startedAt := "s", finishedAt := "f", ignoreFailure := false } = "queued" :=
  ⟨(getStatus_total_mapping _).1 (by right; right; left; rfl),
   (getStatus_total_mapping _).2.1 rfl,
   (getStatus_total_mapping _).2.2 (by refine ⟨?_, ?_, ?_, ?_, ?_⟩ <;> decide)⟩

/-- C2: the derived conclusion is `success` for `passed`, `failure` for
`failed` without `ignoreFailure`, `cancelled` for `canceled`, and `neutral`
in every other case, including `failed` with `ignoreFailure` and `errored`. -/
theorem getConclusion_mapping (j : JobInfo) :
    (j.state = "passed" → getConclusion j = "success") ∧
    (j.state = "failed" ∧ j.ignoreFailure = false → getConclusion j = "failure") ∧
    (j.state = "canceled" → getConclusion j = "cancelled") ∧
    (j.state ≠ "passed" ∧ (j.state ≠ "failed" ∨ j.ignoreFailure = true) ∧
        j.state ≠ "canceled" → getConclusion j = "neutral") := by
  refine ⟨fun h => ?_, fun h => ?_, fun h => ?_, fun h => ?_⟩
  · simp [getConclusion, h]
  · simp [getConclusion, h.1, h.2]
  · simp [getConclusion, h]
  · obtain ⟨h1, h2, h3⟩ := h
    unfold getConclusion
    rcases h2 with h2 | h2 <;> simp [h1, h2, h3]

/-- Witness for C2 at concrete states, including `failed` with
`ignoreFailure` and `errored`. -/
theorem getConclusion_mapping_witness :
    getConclusion { jobId := "1", name := "n", url := "u", state := "passed",
                    startedAt := "s", finishedAt := "f", ignoreFailure := false } = "success" ∧
    getConclusion { jobId := "1", name := "n", url := "u", state := "failed",
                    startedAt := "s", finishedAt := "f", ignoreFailure := false } = "failure" ∧
    getConclusion { jobId := "1", name := "n", url := "u", state := "canceled",
                    startedAt := "s", finishedAt := "f", ignoreFailure := false } = "cancelled" ∧
    getConclusion { jobId := "1", name := "n", url := "u", state := "failed",
                    startedAt := "s", finishedAt := "f", ignoreFailure := true } = "neutral" ∧
    getConclusion { jobId := "1", name := "n", url := "u", state := "errored",
                    startedAt := "s", finishedAt := "f", ignoreFailure := false } = "neutral" :=
  ⟨(getConclusion_mapping _).1 rfl,
   (getConclusion_mapping _).2.1 ⟨rfl, rfl⟩,
   (getConclusion_mapping _).2.2.1 rfl,
   (getConclusion_mapping _).2.2.2 (by refine ⟨?_, Or.inr rfl, ?_⟩ <;> decide),
   (getConclusion_mapping _).2.2.2 (by refine ⟨?_, Or.inl ?_, ?_⟩ <;> decide)⟩

/-- Helper: `addCompletionInfo` only touches the completion fields; the
`external_id` of the payload is preserved. -/
theorem addCompletionInfo_external_id
    (g : JobInfo → Except String (Option CheckOutput))
    (p : ChecksCreateParams) (j : JobInfo) :
    (addCompletionInfo g p j).1.external_id = p.external_id := by
  unfold addCompletionInfo
  dsimp only
  split
  · rfl
  · cases g j with
    | ok v => cases v <;> rfl
    | error e => rfl

/-- Helper: the create condition of the `checksToCreate` loop, spelled as a
proposition about the first matching existing check. -/
theorem shouldCreate_iff (bi : BuildInfo) (checks : List CheckRun) (j : JobInfo) :
    shouldCreate bi checks j = true ↔
      checks.find? (fun c => isCheckForJob bi c j) = none ∨
        ∃ e, checks.find? (fun c => isCheckForJob bi c j) = some e ∧
          (getStatus j ≠ e.status ∨ j.name ≠ e.name) := by
  unfold shouldCreate
  cases h : checks.find? (fun c => isCheckForJob bi c j) with
  | none => simp [h]
  | some e => simp [h, bne_iff_ne, ne_eq, or_comm]

/-- C3: a job is in the result of `checksToCreate` iff it is an input job
and either no existing check run matches its decoded identity, or the
matching check run's status differs from the status derived from the job's
state, or its name differs from the job's name; in particular a job whose
matching check run agrees on identity, status and name is dropped. -/
theorem checksToCreate_membership :
    (∀ (bi : BuildInfo) (checks : List CheckRun) (jobs : List JobInfo) (j : JobInfo),
      j ∈ checksToCreate bi checks jobs ↔
        j ∈ jobs ∧
          (checks.find? (fun c => isCheckForJob bi c j) = none ∨
            ∃ e, checks.find? (fun c => isCheckForJob bi c j) = some e ∧
              (getStatus j ≠ e.status ∨ j.name ≠ e.name))) ∧
    (∀ (bi : BuildInfo) (c : CheckRun) (j : JobInfo),
      isCheckForJob bi c j = true → getStatus j = c.status → j.name = c.name →
        checksToCreate bi [c] [j] = []) := by
  constructor
  · intro bi checks jobs j
    rw [checksToCreate, List.mem_filter, shouldCreate_iff]
  · intro bi c j hmatch hstatus hname
    have hfind : List.find? (fun x => isCheckForJob bi x j) [c] = some c := by
      simp [List.find?, hmatch]
    simp [checksToCreate, shouldCreate, hfind, hstatus, hname]

/-- Witness for C3: a build `ci/42`, a job `7` named `build` in state
`started`, and one existing check run with `external_id` `ci/42/7`, status
`in_progress` and name `build`: `checksToCreate` returns the empty list. -/
theorem checksToCreate_membership_witness :
    checksToCreate ⟨"42", "ci", "o", "r", "abc"⟩
      [{ external_id := some "ci/42/7", status := "in_progress", name := "build",
         conclusion := none, app_id := 1 }]
      [{ jobId := "7", name := "build", url := "u", state := "started",
         startedAt := "t0", finishedAt := "t1", ignoreFailure := false }] = [] :=
  checksToCreate_membership.2 _ _ _ (by decide) (by decide) (by decide)

/-- C6: the output of `checksToCreate` is a sublist of the input: only input
jobs, each at most as often as it occurs in the input, in input order. -/
theorem checksToCreate_sublist (bi : BuildInfo) (checks : List CheckRun)
    (jobs : List JobInfo) :
    List.Sublist (checksToCreate bi checks jobs) jobs :=
  List.filter_sublist jobs

/-- C5: when the fetch of existing check runs throws, `checksToCreate`
returns exactly the input list of jobs, unchanged. -/
theorem checksToCreateFull_fail_open (appId : Nat) (bi : BuildInfo) (e : String)
    (jobs : List JobInfo) :
    checksToCreateFull appId bi (Except.error e) jobs = jobs := by
  unfold checksToCreateFull getExistingChecks checksToCreate
  refine List.filter_eq_self.mpr fun j _ => ?_
  simp [shouldCreate]

/-- C4: every create payload built by `createCheck` has `external_id` equal
to `domain ++ "/" ++ buildId ++ "/" ++ jobId`; on the spec's example build
`ci/42` and started job `7`, the payload has `external_id` `ci/42/7`, status
`in_progress`, and no completion fields. -/
theorem createCheck_external_id_format :
    (∀ (gJO : JobInfo → Except String (Option CheckOutput))
        (bi : BuildInfo) (ji : JobInfo),
      (createCheckPayload gJO bi ji).1.external_id =
        bi.domain ++ "/" ++ bi.id ++ "/" ++ ji.jobId) ∧
    ((createCheckPayload (fun _ => Except.ok none) ⟨"42", "ci", "o", "r", "abc"⟩
        ⟨"7", "build", "u", "started", "t0", "t1", false⟩).1.external_id = "ci/42/7" ∧
      (createCheckPayload (fun _ => Except.ok none) ⟨"42", "ci", "o", "r", "abc"⟩
        ⟨"7", "build", "u", "started", "t0", "t1", false⟩).1.status = "in_progress" ∧
      (createCheckPayload (fun _ => Except.ok none) ⟨"42", "ci", "o", "r", "abc"⟩
        ⟨"7", "build", "u", "started", "t0", "t1", false⟩).1.conclusion = none ∧
      (createCheckPayload (fun _ => Except.ok none) ⟨"42", "ci", "o", "r", "abc"⟩
        ⟨"7", "build", "u", "started", "t0", "t1", false⟩).1.completed_at = none ∧
      (createCheckPayload (fun _ => Except.ok none) ⟨"42", "ci", "o", "r", "abc"⟩
        ⟨"7", "build", "u", "started", "t0", "t1", false⟩).1.output = none) := by
  constructor
  · intro gJO bi ji
    unfold createCheckPayload
    dsimp only
    split
    · rw [addCompletionInfo_external_id]; rfl
    · rfl
  · refine ⟨by decide, by decide, by decide, by decide, by decide⟩

/-- Helper: the `getJobOutput` invocations recorded by `createCheck` are
those of its payload-assembly phase, whichever way the create call ends. -/
theorem createCheck_output_calls
    (gJO : JobInfo → Except String (Option CheckOutput))
    (create : ChecksCreateParams → Except String CreateResult)
    (bi : BuildInfo) (ji : JobInfo) :
    (createCheck gJO create bi ji).2.1 = (createCheckPayload gJO bi ji).2 := by
  unfold createCheck
  dsimp only
  cases create (createCheckPayload gJO bi ji).1 <;> rfl

/-- C7: for a job in state `canceled`, the completion payload carries
conclusion `cancelled` and `completed_at`, the `getJobOutput` callback is
never invoked, and no output block is attached. -/
theorem createCheck_canceled_skips_output
    (gJO : JobInfo → Except String (Option CheckOutput))
    (create : ChecksCreateParams → Except String CreateResult)
    (bi : BuildInfo) (ji : JobInfo) (h : ji.state = "canceled") :
    (createCheckPayload gJO bi ji).2 = [] ∧
    (createCheckPayload gJO bi ji).1.conclusion = some "cancelled" ∧
    (createCheckPayload gJO bi ji).1.completed_at = some ji.finishedAt ∧
    (createCheckPayload gJO bi ji).1.output = none ∧
    (createCheck gJO create bi ji).2.1 = [] := by
  have hstatus : getStatus ji = "completed" := by
    unfold getStatus FINISHED_STATES
    simp [h]
  have hconc : getConclusion ji = "cancelled" := by
    unfold getConclusion
    simp [h]
  have hp : createCheckPayload gJO bi ji =
      ({ getChecksCreateParams bi ji with
          conclusion := some "cancelled"
          completed_at := some ji.finishedAt }, []) := by
    unfold createCheckPayload addCompletionInfo
    simp [getChecksCreateParams, hstatus, hconc]
  refine ⟨by rw [hp], by rw [hp], by rw [hp], ?_, ?_⟩
  · rw [hp]
    simp [getChecksCreateParams]
  · rw [createCheck_output_calls, hp]

/-- Witness for C7: a concrete canceled job of build `ci/42`. -/
theorem createCheck_canceled_skips_output_witness :
    (createCheckPayload (fun _ => Except.ok (some ⟨"t", "s", "x"⟩))
        ⟨"42", "ci", "o", "r", "abc"⟩
        ⟨"7", "build", "u", "canceled", "t0", "t1", false⟩).2 = [] ∧
    (createCheckPayload (fun _ => Except.ok (some ⟨"t", "s", "x"⟩))
        ⟨"42", "ci", "o", "r", "abc"⟩
        ⟨"7", "build", "u", "canceled", "t0", "t1", false⟩).1.conclusion =
      some "cancelled" :=
  have h := createCheck_canceled_skips_output
    (fun _ => Except.ok (some ⟨"t", "s", "x"⟩)) (fun _ => Except.ok ⟨9⟩)
    ⟨"42", "ci", "o", "r", "abc"⟩
    ⟨"7", "build", "u", "canceled", "t0", "t1", false⟩ rfl
  ⟨h.1, h.2.1⟩

/-- C9: `createCheck` passes exactly one payload to the remote create call;
when the call succeeds it returns the created check run's numeric id as a
string, and when the call fails it returns no identifier. -/
theorem createCheck_outcome
    (gJO : JobInfo → Except String (Option CheckOutput))
    (create : ChecksCreateParams → Except String CreateResult)
    (bi : BuildInfo) (ji : JobInfo) :
    (createCheck gJO create bi ji).2.2 = [(createCheckPayload gJO bi ji).1] ∧
    (∀ r, create (createCheckPayload gJO bi ji).1 = Except.ok r →
      (createCheck gJO create bi ji).1 = some (toString r.id)) ∧
    (∀ e, create (createCheckPayload gJO bi ji).1 = Except.error e →
      (createCheck gJO create bi ji).1 = none) := by
  unfold createCheck
  dsimp only
  cases hc : create (createCheckPayload gJO bi ji).1 <;> simp [hc]

/-- Witness for C9: a create call that returns id 17 yields `"17"`, a
throwing create call yields no identifier; both attempt one call. -/
theorem createCheck_outcome_witness :
    (createCheck (fun _ => Except.ok none) (fun _ => Except.ok ⟨17⟩)
        ⟨"42", "ci", "o", "r", "abc"⟩
        ⟨"7", "build", "u", "started", "t0", "t1", false⟩).1 = some "17" ∧
    (createCheck (fun _ => Except.ok none) (fun _ => Except.error "boom")
        ⟨"42", "ci", "o", "r", "abc"⟩
        ⟨"7", "build", "u", "started", "t0", "t1", false⟩).1 = none :=
  ⟨(createCheck_outcome (fun _ => Except.ok none) (fun _ => Except.ok ⟨17⟩)
      ⟨"42", "ci", "o", "r", "abc"⟩
      ⟨"7", "build", "u", "started", "t0", "t1", false⟩).2.1 ⟨17⟩ rfl,
   (createCheck_outcome (fun _ => Except.ok none) (fun _ => Except.error "boom")
      ⟨"42", "ci", "o", "r", "abc"⟩
      ⟨"7", "build", "u", "started", "t0", "t1", false⟩).2.2 "boom" rfl⟩

/-- Helper: when no status on any page carries the Travis context, the
paginated scan finds nothing. -/
theorem findTravisStatus_eq_none (pages : List (List CommitStatus))
    (h : ∀ page ∈ pages, ∀ s ∈ page,
      s.context ≠ "continuous-integration/travis-ci/pr") :
    findTravisStatus pages = none := by
  induction pages with
  | nil => rfl
  | cons page rest ih =>
    unfold findTravisStatus
    have hfind : page.find?
        (fun s => s.context == "continuous-integration/travis-ci/pr") = none := by
      refine List.find?_eq_none.mpr fun s hs => ?_
      simpa using h page (List.mem_cons_self page rest) s hs
    rw [hfind]
    exact ih fun p hp s hs => h p (List.mem_cons_of_mem page hp) s hs

/-- C8: `getLatestTravisStatus` returns `undefined` when the pull-request
fetch throws, when the pull request has no head commit, when the status
fetch throws, and when no status on any page carries the Travis context;
otherwise it returns the repository, the head sha, and the matching
status's target URL. -/
theorem getLatestTravisStatus_contract :
    (∀ (repo e : String) (sf : Except String (List (List CommitStatus))),
      getLatestTravisStatus repo (Except.error e) sf = none) ∧
    (∀ (repo : String) (pr : PullRequest) (sf : Except String (List (List CommitStatus))),
      pr.head = none → getLatestTravisStatus repo (Except.ok pr) sf = none) ∧
    (∀ (repo : String) (pr : PullRequest) (e : String),
      getLatestTravisStatus repo (Except.ok pr) (Except.error e) = none) ∧
    (∀ (repo : String) (pr : PullRequest) (pages : List (List CommitStatus)),
      (∀ page ∈ pages, ∀ s ∈ page,
        s.context ≠ "continuous-integration/travis-ci/pr") →
      getLatestTravisStatus repo (Except.ok pr) (Except.ok pages) = none) ∧
    (∀ (repo : String) (pr : PullRequest) (h : PullRequestHead)
        (pages : List (List CommitStatus)) (st : CommitStatus),
      pr.head = some h → findTravisStatus pages = some st →
      getLatestTravisStatus repo (Except.ok pr) (Except.ok pages) =
        some { repository := repo, sha := h.sha, target_url := st.target_url }) := by
  refine ⟨fun repo e sf => rfl, fun repo pr sf hh => ?_, fun repo pr e => ?_,
    fun repo pr pages hnone => ?_, fun repo pr h pages st hh hf => ?_⟩
  · simp [getLatestTravisStatus, hh]
  · cases hh : pr.head <;> simp [getLatestTravisStatus, hh]
  · cases hh : pr.head with
    | none => simp [getLatestTravisStatus, hh]
    | some h =>
      simp [getLatestTravisStatus, hh, findTravisStatus_eq_none pages hnone]
  · simp [getLatestTravisStatus, hh, hf]

/-- Witness for C8 at concrete inputs: a throwing PR fetch, a headless PR, a
throwing status fetch, a page with only a non-Travis context, and a
successful lookup. -/
theorem getLatestTravisStatus_contract_witness :
    getLatestTravisStatus "o/r" (Except.error "down")
      (Except.ok [[⟨"continuous-integration/travis-ci/pr", "t"⟩]]) = none ∧
    getLatestTravisStatus "o/r" (Except.ok ⟨none⟩)
      (Except.ok [[⟨"continuous-integration/travis-ci/pr", "t"⟩]]) = none ∧
    getLatestTravisStatus "o/r" (Except.ok ⟨some ⟨"abc"⟩⟩)
      (Except.error "down") = none ∧
    getLatestTravisStatus "o/r" (Except.ok ⟨some ⟨"abc"⟩⟩)
      (Except.ok [[⟨"ci/other", "t"⟩]]) = none ∧
    getLatestTravisStatus "o/r" (Except.ok ⟨some ⟨"abc"⟩⟩)
      (Except.ok [[⟨"ci/other", "u"⟩, ⟨"continuous-integration/travis-ci/pr", "t"⟩]]) =
      some { repository := "o/r", sha := "abc", target_url := "t" } :=
  ⟨getLatestTravisStatus_contract.1 "o/r" "down" _,
   getLatestTravisStatus_contract.2.1 "o/r" ⟨none⟩ _ rfl,
   getLatestTravisStatus_contract.2.2.1 "o/r" ⟨some ⟨"abc"⟩⟩ "down",
   getLatestTravisStatus_contract.2.2.2.1 "o/r" ⟨some ⟨"abc"⟩⟩ _
     (by decide),
   getLatestTravisStatus_contract.2.2.2.2 "o/r" ⟨some ⟨"abc"⟩⟩ ⟨"abc"⟩ _
     ⟨"continuous-integration/travis-ci/pr", "t"⟩ rfl (by decide)⟩

/-- C10: the diff compares an existing check run to a job only by derived
status and name, never by conclusion: replacing every stored conclusion
leaves the result of `checksToCreate` unchanged; a check run with a missing
or empty `external_id` matches no job; and on the concrete example of a job
that moved from `failed` to `passed` against a check run recorded with
status `completed`, conclusion `failure` and an equal name, the job is
still excluded although its conclusion would now be `success`. -/
theorem checksToCreate_ignores_conclusion :
    (∀ (bi : BuildInfo) (checks : List CheckRun) (jobs : List JobInfo)
        (x : Option String),
      checksToCreate bi (checks.map fun c => { c with conclusion := x }) jobs =
        checksToCreate bi checks jobs) ∧
    (∀ (bi : BuildInfo) (c : CheckRun) (j : JobInfo),
      c.external_id = none ∨ c.external_id = some "" →
        isCheckForJob bi c j = false) ∧
    (checksToCreate ⟨"42", "ci", "o", "r", "abc"⟩
        [{ external_id := some "ci/42/7", status := "completed", name := "build",
           conclusion := some "failure", app_id := 1 }]
        [{ jobId := "7", name := "build", url := "u", state := "passed",
           startedAt := "t0", finishedAt := "t1", ignoreFailure := false }] = [] ∧
      getConclusion { jobId := "7", name := "build", url := "u",
                      state := "passed", startedAt := "t0", finishedAt := "t1",
                      ignoreFailure := false } =
        "success") := by
  refine ⟨fun bi checks jobs x => ?_, fun bi c j h => ?_, by decide, by decide⟩
  · unfold checksToCreate
    refine List.filter_congr fun j _ => ?_
    unfold shouldCreate
    have hmap : (checks.map fun c => { c with conclusion := x }).find?
        (fun c => isCheckForJob bi c j) =
        Option.map (fun c => { c with conclusion := x })
          (checks.find? (fun c => isCheckForJob bi c j)) :=
      List.find?_map _ checks
    rw [hmap]
    cases checks.find? (fun c => isCheckForJob bi c j) with
    | none => rfl
    | some e => rfl
  · rcases h with h | h <;> simp [isCheckForJob, h]

/-- Witness for C10: a check run with no external id and one with an empty
external id, neither matching a concrete job. -/
theorem checksToCreate_ignores_conclusion_witness :
    isCheckForJob ⟨"42", "ci", "o", "r", "abc"⟩
      { external_id := none, status := "queued", name := "n",
        conclusion := none, app_id := 1 }
      ⟨"7", "build", "u", "started", "t0", "t1", false⟩ = false ∧
    isCheckForJob ⟨"42", "ci", "o", "r", "abc"⟩
      { external_id := some "", status := "queued", name := "n",
        conclusion := none, app_id := 1 }
      ⟨"7", "build", "u", "started", "t0", "t1", false⟩ = false :=
  ⟨checksToCreate_ignores_conclusion.2.1 _ _ _ (Or.inl rfl),
   checksToCreate_ignores_conclusion.2.1 _ _ _ (Or.inr rfl)⟩
